import Mathlib

/-!
Verification of the TitleChain multi-source search orchestration subsystem.

This file gives a shallow embedding, in Lean 4, of the Python modules
`backend/agents/county_connector.py`, `backend/agents/county_registry.py`
and `backend/agents/search_agent.py`, and proves (or refutes) the frozen
claims about them.

Modelling conventions:
- `datetime` values are modelled as `Int` instants (seconds); differences of
  instants model `timedelta` comparisons.
- Python floats are modelled as `Rat`.
- Python truthiness of `Optional[str]`, `Optional[list]` and dict values is
  modelled explicitly (`none` and empty strings/lists/dicts are falsy).
- `md5(...).hexdigest()` is modelled by an arbitrary deterministic
  `h : String → String` parameter applied to the exact string the code hashes.
- `async` code is sequentialized; the network-touching connector operations
  are oracles (`Except String _` outcomes) supplied per call, and the
  `asyncio.Semaphore` discipline of `_execute_parallel_searches` is modelled
  separately as a labelled transition system.
-/

namespace TitleChain

/-- `DocumentType` enum from `county_connector.py`. -/
inductive DocumentType
  | deed | mortgage | lien | release | easement | plat | judgment | ucc | other
deriving DecidableEq, Repr

/-- `AccessMethod` enum from `county_connector.py`. -/
inductive AccessMethod
  | rest_api | soap_api | web_scraper | ftp | database | mock
deriving DecidableEq, Repr

/-- `LandRecordDocument` dataclass from `county_connector.py`.
Document content/bytes fields are modelled as optional strings. -/
structure LandRecordDocument where
  document_id : String
  county : String
  state : String
  book : Option String := none
  page : Option String := none
  instrument_number : Option String := none
  recording_date : Option Int := none
  document_type : DocumentType := DocumentType.other
  document_subtype : Option String := none
  grantor : Option (List String) := none
  grantee : Option (List String) := none
  parcel_number : Option String := none
  property_address : Option String := none
  legal_description : Option String := none
  consideration : Option Rat := none
  document_url : Option String := none
  document_text : Option String := none
  retrieved_at : Int := 0
  source_system : Option String := none
  confidence_score : Rat := 1
deriving DecidableEq, Repr

/-- `SearchCriteria` dataclass from `county_connector.py`. -/
structure SearchCriteria where
  parcel_number : Option String := none
  property_address : Option String := none
  owner_name : Option String := none
  grantor_name : Option String := none
  grantee_name : Option String := none
  book : Option String := none
  page : Option String := none
  instrument_number : Option String := none
  start_date : Option Int := none
  end_date : Option Int := none
  document_types : Option (List DocumentType) := none
  max_results : Nat := 100
  include_images : Bool := false
deriving DecidableEq, Repr

/-- Python truthiness of an `Optional[str]`: `None` and `""` are falsy. -/
def truthyStr : Option String → Bool
  | some s => !s.isEmpty
  | none => false

/-- Python truthiness of an `Optional[List[DocumentType]]`. -/
def truthyTypes : Option (List DocumentType) → Bool
  | some l => !l.isEmpty
  | none => false

/-- Python truthiness of an `Optional[List[LandRecordDocument]]`. -/
def truthyDocs : Option (List LandRecordDocument) → Bool
  | some l => !l.isEmpty
  | none => false

/-- The per-field search behaviour of one connector (the abstract methods of
`CountyConnectorBase` that `search` composes). Each is an oracle giving the
documents that call would return. -/
structure ConnectorBehavior where
  search_by_parcel : String → List LandRecordDocument
  search_by_address : String → List LandRecordDocument
  search_by_owner : String → List LandRecordDocument
  search_by_instrument :
    Option String → Option String → Option String → Option LandRecordDocument

/-- The concatenation step of `CountyConnectorBase.search`: invoke each
identifying-field search that the criteria populates (Python truthiness),
in source order, and concatenate. -/
def concatResults (c : ConnectorBehavior) (cr : SearchCriteria) :
    List LandRecordDocument :=
  (if truthyStr cr.parcel_number then
      c.search_by_parcel (cr.parcel_number.getD "") else [])
  ++ (if truthyStr cr.property_address then
      c.search_by_address (cr.property_address.getD "") else [])
  ++ (if truthyStr cr.owner_name then
      c.search_by_owner (cr.owner_name.getD "") else [])
  ++ (if truthyStr cr.book || truthyStr cr.page || truthyStr cr.instrument_number
      then (c.search_by_instrument cr.book cr.page cr.instrument_number).toList
      else [])

/-- The document-type filter step of `CountyConnectorBase.search`
(`if criteria.document_types:` — `None` and `[]` are both falsy). -/
def typeFiltered (c : ConnectorBehavior) (cr : SearchCriteria) :
    List LandRecordDocument :=
  if truthyTypes cr.document_types then
    (concatResults c cr).filter
      (fun d => decide (d.document_type ∈ cr.document_types.getD []))
  else concatResults c cr

/-- The `start_date` filter step of `CountyConnectorBase.search`: the Python
predicate `doc.recording_date and doc.recording_date >= criteria.start_date`
drops every document whose `recording_date` is `None`. -/
def startDateFiltered (c : ConnectorBehavior) (cr : SearchCriteria) :
    List LandRecordDocument :=
  match cr.start_date with
  | some s => (typeFiltered c cr).filter
      (fun d => match d.recording_date with
        | some r => decide (s ≤ r)
        | none => false)
  | none => typeFiltered c cr

/-- The `end_date` filter step of `CountyConnectorBase.search`, applied after
the `start_date` filter; again a `None` recording date is dropped. -/
def dateFiltered (c : ConnectorBehavior) (cr : SearchCriteria) :
    List LandRecordDocument :=
  match cr.end_date with
  | some e => (startDateFiltered c cr).filter
      (fun d => match d.recording_date with
        | some r => decide (r ≤ e)
        | none => false)
  | none => startDateFiltered c cr

/-- The de-duplication loop of `CountyConnectorBase.search`: walk the list,
keeping a document only if its `document_id` has not been seen. -/
def dedupById : List LandRecordDocument → List String → List LandRecordDocument
  | [], _ => []
  | d :: ds, seen =>
    if d.document_id ∈ seen then dedupById ds seen
    else d :: dedupById ds (d.document_id :: seen)

/-- `CountyConnectorBase.search` (the unified search): concatenate the
per-field results, filter by document type and date range, de-duplicate by
document id, and truncate to `max_results`. -/
def connectorSearch (c : ConnectorBehavior) (cr : SearchCriteria) :
    List LandRecordDocument :=
  (dedupById (dateFiltered c cr) []).take cr.max_results

/-! ## Registry and connector factory (`county_registry.py`) -/

/-- The constructed-connector identity (the data held by a live
`CountyConnectorBase` instance; its behaviour is supplied separately as
oracles). `email`/`password` record the `config` of a Montgomery connector. -/
structure Connector where
  county : String
  state : String
  access_method : AccessMethod
  authenticated : Bool := false
  email : Option String := none
  password : Option String := none
deriving DecidableEq, Repr

/-- `MockCountyConnector(county, state)`: the guaranteed-available stub. -/
def MockCountyConnector (county state : String) : Connector :=
  { county := county, state := state, access_method := AccessMethod.mock }

/-- `MontgomeryCountyMDConnector(email, password)` construction. -/
def MontgomeryCountyMDConnector (email password : String) : Connector :=
  { county := "Montgomery", state := "MD",
    access_method := AccessMethod.web_scraper,
    email := some email, password := some password }

/-- One entry of `CountyConfig.connectors` (an access-strategy descriptor;
`priority` defaults to 99 as in `x.get('priority', 99)`). -/
structure ConnectorConfig where
  connector_type : String
  priority : Nat := 99
  access_method : AccessMethod := AccessMethod.mock
  requires_auth : Bool := false
deriving DecidableEq, Repr

/-- Stable insertion of a strategy into a priority-sorted list (equal
priorities keep the earlier entry first, as Python's stable `list.sort`). -/
def insertByPriority (c : ConnectorConfig) :
    List ConnectorConfig → List ConnectorConfig
  | [] => [c]
  | d :: ds =>
    if d.priority ≤ c.priority then d :: insertByPriority c ds
    else c :: d :: ds

/-- Stable sort by priority, modelling
`self.connectors.sort(key=lambda x: x.get('priority', 99))`. -/
def sortByPriority : List ConnectorConfig → List ConnectorConfig
  | [] => []
  | c :: cs => insertByPriority c (sortByPriority cs)

/-- `CountyConfig` dataclass from `county_registry.py`. -/
structure CountyConfig where
  county : String
  state : String
  fips_code : String
  connectors : List ConnectorConfig
  population : Option Nat := none
  has_online_access : Bool := false
  requires_subscription : Bool := false
  requests_per_minute : Nat := 10
  requests_per_day : Option Nat := none
  website_url : Option String := none
  notes : Option String := none
  last_updated : Option String := none
deriving DecidableEq, Repr

/-- `CountyConfig.__post_init__`: sort the strategy list by priority. -/
def mkCountyConfig (c : CountyConfig) : CountyConfig :=
  { c with connectors := sortByPriority c.connectors }

/-- `CountyRegistry` state: the county dict and the names of registered
connector classes. -/
structure CountyRegistry where
  counties : List (String × CountyConfig) := []
  connector_classes : List String := []

/-- `f"{state}_{county}".lower().replace(" ", "_")`, written as a
character-wise map (the replaced pattern is the single character " ", so
lowering then replacing is exactly this map). -/
def countyKey (state county : String) : String :=
  String.mk (((state ++ "_" ++ county).data).map
    (fun c => if c = ' ' then '_' else c.toLower))

/-- `CountyRegistry.add_county` (dict assignment: replaces any entry with the
same key). -/
def addCounty (reg : CountyRegistry) (config : CountyConfig) : CountyRegistry :=
  { reg with counties :=
      (countyKey config.state config.county, config) ::
        (reg.counties.filter
          (fun p => p.1 != countyKey config.state config.county)) }

/-- `CountyRegistry.get_county`. -/
def getCounty (reg : CountyRegistry) (county state : String) :
    Option CountyConfig :=
  (reg.counties.find? (fun p => p.1 == countyKey state county)).map
    (fun p => p.2)

/-- The Montgomery County, MD default configuration from
`_load_default_configs` (strategies: `montgomery_md` at priority 1,
`mock` at priority 4). -/
def montgomeryConfig : CountyConfig := mkCountyConfig
  { county := "Montgomery", state := "MD", fips_code := "24031",
    connectors :=
      [ { connector_type := "montgomery_md", priority := 1,
          access_method := AccessMethod.web_scraper, requires_auth := true },
        { connector_type := "mock", priority := 4,
          access_method := AccessMethod.mock } ],
    population := some 1062061, has_online_access := true,
    requires_subscription := true,
    website_url := some "https://landrec.msa.maryland.gov",
    notes := some "Free access with email registration. Web scraping required.",
    last_updated := some "2026-01-08" }

/-- The Los Angeles County, CA default configuration. -/
def losAngelesConfig : CountyConfig := mkCountyConfig
  { county := "Los Angeles", state := "CA", fips_code := "06037",
    connectors :=
      [ { connector_type := "mock", priority := 4,
          access_method := AccessMethod.mock } ],
    population := some 10014009, has_online_access := true,
    website_url := some "https://lavote.gov/",
    notes := some "Has public API - connector not yet implemented",
    last_updated := some "2026-01-08" }

/-- The Cook County, IL default configuration. -/
def cookConfig : CountyConfig := mkCountyConfig
  { county := "Cook", state := "IL", fips_code := "17031",
    connectors :=
      [ { connector_type := "mock", priority := 4,
          access_method := AccessMethod.mock } ],
    population := some 5275541, has_online_access := true,
    website_url := some "https://www.cookcountyassessor.com/",
    notes := some "Public data portal available - connector not yet implemented",
    last_updated := some "2026-01-08" }

/-- A `CountyRegistry()` built with no config file: built-in connector classes
plus `_load_default_configs`. -/
def defaultRegistry : CountyRegistry :=
  addCounty (addCounty (addCounty
    { counties := [], connector_classes := ["mock", "montgomery_md"] }
    montgomeryConfig) losAngelesConfig) cookConfig

/-- A credential store: connector-type name to a small string-keyed bundle. -/
def CredStore : Type := List (String × List (String × String))

/-- `dict.get(k)` on a credential bundle. -/
def dictGet (d : List (String × String)) (k : String) : Option String :=
  (d.find? (fun p => p.1 == k)).map (fun p => p.2)

/-- `creds = self.credentials.get(t, {}); if not creds: creds =
self.credentials.get('global', {})` — an empty dict is falsy. -/
def resolveCreds (credentials : CredStore) (connector_type : String) :
    List (String × String) :=
  let creds :=
    ((credentials.find? (fun p => p.1 == connector_type)).map
      (fun p => p.2)).getD []
  if creds.isEmpty then
    ((credentials.find? (fun p => p.1 == "global")).map (fun p => p.2)).getD []
  else creds

/-- `CountyConnectorFactory._instantiate_connector`. The `genericBuild`
oracle stands for `connector_class(**creds)` on connector types other than
the two the code special-cases. -/
def instantiateConnector
    (genericBuild : String → List (String × String) → Except String Connector)
    (reg : CountyRegistry) (credentials : CredStore)
    (connector_config : ConnectorConfig) (county_config : CountyConfig) :
    Except String Connector :=
  let t := connector_config.connector_type
  if !reg.connector_classes.contains t then
    Except.error ("Unknown connector type: " ++ t)
  else
    let creds := resolveCreds credentials t
    if t == "mock" then
      Except.ok (MockCountyConnector county_config.county county_config.state)
    else if t == "montgomery_md" then
      let email := dictGet creds "email"
      let password := dictGet creds "password"
      if !truthyStr email || !truthyStr password then
        Except.error "Montgomery County MD connector requires email and password"
      else
        Except.ok (MontgomeryCountyMDConnector (email.getD "") (password.getD ""))
    else genericBuild t creds

/-- The strategy list actually iterated by `create_connector`: filtered to
`priority <= p` when a maximum priority is given. -/
def filteredConnectors (config : CountyConfig) (priority : Option Nat) :
    List ConnectorConfig :=
  match priority with
  | some p => config.connectors.filter (fun c => c.priority ≤ p)
  | none => config.connectors

/-- First successful instantiation attempt, in list order (`for ... try ...
except: continue`). -/
def firstSuccess (f : ConnectorConfig → Except String Connector) :
    List ConnectorConfig → Option Connector
  | [] => none
  | c :: cs =>
    match f c with
    | Except.ok conn => some conn
    | Except.error _ => firstSuccess f cs

/-- `CountyConnectorFactory.create_connector`: look up the county, filter
strategies by priority ceiling, try each in order, and fall back to
`MockCountyConnector` if every attempt fails. -/
def createConnector
    (genericBuild : String → List (String × String) → Except String Connector)
    (reg : CountyRegistry) (credentials : CredStore)
    (county state : String) (priority : Option Nat) : Except String Connector :=
  match getCounty reg county state with
  | none => Except.error ("County not found: " ++ county ++ ", " ++ state)
  | some config =>
    let connectors := filteredConnectors config priority
    if connectors.isEmpty then
      Except.error ("No suitable connector found for " ++ county ++ ", " ++ state)
    else
      match firstSuccess
          (fun cc => instantiateConnector genericBuild reg credentials cc config)
          connectors with
      | some conn => Except.ok conn
      | none => Except.ok (MockCountyConnector county state)

/-! ## Document cache and search orchestrator (`search_agent.py`) -/

/-- `DocumentCache` state: TTL plus the dict, modelled as a map from key to
`(cached_at, documents)`. -/
structure DocumentCache where
  ttl_seconds : Int := 3600
  store : String → Option (Int × List LandRecordDocument)

/-- `DocumentCache.get`: on a present key, return the documents if
`now - cached_at < ttl`, otherwise delete the entry and miss. -/
def cacheGet (now : Int) (c : DocumentCache) (key : String) :
    DocumentCache × Option (List LandRecordDocument) :=
  match c.store key with
  | some entry =>
    if now - entry.1 < c.ttl_seconds then (c, some entry.2)
    else ({ c with store := fun k => if k = key then none else c.store k }, none)
  | none => (c, none)

/-- `DocumentCache.set`: unconditional overwrite with the current time. -/
def cacheSet (now : Int) (c : DocumentCache) (key : String)
    (documents : List LandRecordDocument) : DocumentCache :=
  { c with store := fun k => if k = key then some (now, documents) else c.store k }

/-- `DocumentCache._make_key`: md5 (the `h` parameter) of
`"|".join([county, state, parcel or "", address or "", owner or ""])`. -/
def makeKey (h : String → String) (county state : String)
    (cr : SearchCriteria) : String :=
  h (String.intercalate "|"
    [county, state, cr.parcel_number.getD "", cr.property_address.getD "",
     cr.owner_name.getD ""])

/-- `SearchStatus` enum from `search_agent.py`; `partialSuccess` models the
member named PARTIAL (some counties succeeded, others failed). -/
inductive SearchStatus
  | pending | in_progress | completed | failed | partialSuccess
deriving DecidableEq, Repr

/-- `SearchTask` dataclass from `search_agent.py`. -/
structure SearchTask where
  task_id : String
  county : String
  state : String
  criteria : SearchCriteria
  status : SearchStatus := SearchStatus.pending
  results : List LandRecordDocument := []
  error : Option String := none
  started_at : Option Int := none
  completed_at : Option Int := none
deriving DecidableEq, Repr

/-- `TitleSearchRequest` dataclass from `search_agent.py`. -/
structure TitleSearchRequest where
  parcel_number : Option String := none
  property_address : Option String := none
  current_owner : Option String := none
  counties : List (String × String) := []
  years_back : Nat := 60
  document_types : Option (List DocumentType) := none
  include_mortgages : Bool := true
  include_liens : Bool := true
  include_easements : Bool := true
  retrieve_images : Bool := false
  max_documents : Nat := 1000
  timeout_seconds : Int := 300
deriving DecidableEq, Repr

/-- One entry of `TitleSearchResult.errors`: the dicts appended are either
`{"error": msg}` (no county key) or `{"county": ..., "error": ...}`. -/
structure ErrorRecord where
  county : Option String := none
  error : String
deriving DecidableEq, Repr

/-- `TitleSearchResult` dataclass from `search_agent.py`
(`ownership_chain` is always left `None` by the search path and omitted). -/
structure TitleSearchResult where
  request_id : String
  status : SearchStatus
  started_at : Int
  completed_at : Option Int := none
  documents_by_county : List (String × List LandRecordDocument) := []
  all_documents : List LandRecordDocument := []
  counties_searched : Nat := 0
  counties_succeeded : Nat := 0
  counties_failed : Nat := 0
  total_documents : Nat := 0
  errors : List ErrorRecord := []
deriving DecidableEq, Repr

/-- `str(x)` of an optional string, as Python renders it in f-strings. -/
def optStr : Option String → String
  | some s => s
  | none => "None"

/-- A deterministic rendering of `SearchCriteria`, standing for Python's
`str(criteria)` that `_create_search_task` hashes into the task id. -/
def criteriaRepr (cr : SearchCriteria) : String :=
  String.intercalate ", "
    [optStr cr.parcel_number, optStr cr.property_address, optStr cr.owner_name,
     optStr cr.grantor_name, optStr cr.grantee_name, optStr cr.book,
     optStr cr.page, optStr cr.instrument_number,
     optStr (cr.start_date.map toString), optStr (cr.end_date.map toString),
     toString cr.max_results, toString cr.include_images]

/-- The criteria `SearchAgent._create_search_task` derives from a request:
identifying fields copied, `start_date = now - 365*years_back days`,
`end_date = now` (both always set). -/
def criteriaOfRequest (now : Int) (request : TitleSearchRequest) :
    SearchCriteria :=
  { parcel_number := request.parcel_number,
    property_address := request.property_address,
    owner_name := request.current_owner,
    start_date := some (now - 86400 * (365 * (request.years_back : Int))),
    end_date := some now,
    document_types := request.document_types,
    max_results := request.max_documents,
    include_images := request.retrieve_images }

/-- `SearchAgent._create_search_task`. -/
def createSearchTask (h : String → String) (now : Int) (county state : String)
    (request : TitleSearchRequest) : SearchTask :=
  let criteria := criteriaOfRequest now request
  { task_id :=
      state ++ "_" ++ county ++ "_" ++ (h (criteriaRepr criteria)).take 8,
    county := county, state := state, criteria := criteria }

/-- Outcomes of the fallible (network-touching) steps inside one task:
`factory.create_connector`, `connector.authenticate`, `connector.search`.
Each entry is the result that `await` would produce — a value, or a raised
exception's message. -/
structure ConnOracle where
  create_connector : Except String Connector
  authenticate : Except String Bool
  unified_search : Except String (List LandRecordDocument)

/-- Observable actions of one task execution, in order of occurrence. -/
inductive Event
  | cacheLookup | connectorCreated | authCalled | connectorSearch
  | cacheStore | connectorClosed
deriving DecidableEq, Repr

/-- The `except` handler of `_execute_single_search`: mark the task FAILED,
record the error, stamp `completed_at`. -/
def failTask (t : SearchTask) (e : String) (now : Int) : SearchTask :=
  { t with status := SearchStatus.failed, error := some e,
           completed_at := some now }

/-- `SearchAgent._execute_single_search`, sequentialized. Returns the updated
task, the cache state after the call, and the trace of observable actions.
Cache lookups and stores are pure in-memory dict operations; the fallible
steps come from the oracle, and any error among them is caught by the
task-boundary handler (`failTask`). Note two source facts this mirrors
exactly: a cached empty list is falsy (`if cached_results:`), and
`connector.close()` is reached only on the fully successful path. -/
def executeSingle (h : String → String) (cache : DocumentCache)
    (tStart tEnd : Int) (oracle : ConnOracle) (t0 : SearchTask) :
    SearchTask × DocumentCache × List Event :=
  let t := { t0 with status := SearchStatus.in_progress,
                     started_at := some tStart }
  let key := makeKey h t.county t.state t.criteria
  let cg := cacheGet tStart cache key
  if truthyDocs cg.2 then
    ({ t with results := cg.2.getD [], status := SearchStatus.completed,
              completed_at := some tEnd }, cg.1, [Event.cacheLookup])
  else
    match oracle.create_connector with
    | Except.error e => (failTask t e tEnd, cg.1, [Event.cacheLookup])
    | Except.ok conn =>
      let authStep : List Event × Except String Bool :=
        if conn.authenticated then ([], Except.ok true)
        else ([Event.authCalled], oracle.authenticate)
      match authStep.2 with
      | Except.error e =>
        (failTask t e tEnd, cg.1,
         [Event.cacheLookup, Event.connectorCreated] ++ authStep.1)
      | Except.ok _ =>
        match oracle.unified_search with
        | Except.error e =>
          (failTask t e tEnd, cg.1,
           [Event.cacheLookup, Event.connectorCreated] ++ authStep.1
             ++ [Event.connectorSearch])
        | Except.ok docs =>
          ({ t with results := docs, status := SearchStatus.completed,
                    completed_at := some tEnd },
           cacheSet tStart cg.1 key docs,
           [Event.cacheLookup, Event.connectorCreated] ++ authStep.1
             ++ [Event.connectorSearch, Event.cacheStore,
                 Event.connectorClosed])

/-- `SearchAgent._execute_parallel_searches` after the join: each task's
coroutine result, with `return_exceptions=True` handling — an exception
becomes the original task marked FAILED with the stringified error. -/
def executeParallel (runTask : SearchTask → Except String SearchTask)
    (tasks : List SearchTask) : List SearchTask :=
  tasks.map (fun t =>
    match runTask t with
    | Except.ok finished => finished
    | Except.error e =>
      { t with status := SearchStatus.failed, error := some e })

/-- The per-task aggregation step in `SearchAgent.search`: bump
`counties_searched`, then either credit a success (documents recorded) or a
failure (structured error entry). -/
def aggStep (r : TitleSearchResult) (t : SearchTask) : TitleSearchResult :=
  let county_key := t.county ++ ", " ++ t.state
  if t.status = SearchStatus.completed then
    { r with counties_searched := r.counties_searched + 1,
             counties_succeeded := r.counties_succeeded + 1,
             documents_by_county :=
               r.documents_by_county ++ [(county_key, t.results)],
             all_documents := r.all_documents ++ t.results }
  else
    { r with counties_searched := r.counties_searched + 1,
             counties_failed := r.counties_failed + 1,
             errors := r.errors ++
               [{ county := some county_key,
                  error := t.error.getD "Unknown error" }] }

/-- The overall-status derivation at the end of `SearchAgent.search`. -/
def deriveStatus (r : TitleSearchResult) : SearchStatus :=
  if r.counties_succeeded = r.counties_searched then SearchStatus.completed
  else if 0 < r.counties_succeeded then SearchStatus.partialSuccess
  else SearchStatus.failed

/-- The aggregation tail of `SearchAgent.search`: fold the per-task
aggregation over the executed tasks, stamp `total_documents` and
`completed_at`, then derive the overall status. -/
def aggregateResult (result0 : TitleSearchResult) (endTime : Int)
    (search_results : List SearchTask) : TitleSearchResult :=
  let r := search_results.foldl aggStep result0
  let r1 := { r with total_documents := r.all_documents.length,
                     completed_at := some endTime }
  { r1 with status := deriveStatus r1 }

/-- `SearchAgent.search`, sequentialized: build the initial result, return a
FAILED result immediately when no counties are given, otherwise create one
task per county, execute them (the per-task outcome function `runTask`
abstracts the gathered coroutines), aggregate, stamp totals and completion
time, and derive the overall status. -/
def searchAgent (h : String → String) (now endTime : Int)
    (request : TitleSearchRequest)
    (runTask : SearchTask → Except String SearchTask) : TitleSearchResult :=
  let request_id :=
    (h (optStr request.parcel_number ++ optStr request.property_address
        ++ toString now)).take 16
  let result0 : TitleSearchResult :=
    { request_id := request_id, status := SearchStatus.in_progress,
      started_at := now }
  if request.counties.isEmpty then
    { result0 with status := SearchStatus.failed,
                   errors := [{ county := none,
                                error := "No counties specified for search" }] }
  else
    let tasks := request.counties.map
      (fun cs => createSearchTask h now cs.1 cs.2 request)
    aggregateResult result0 endTime (executeParallel runTask tasks)

/-! ## Semaphore discipline of `_execute_parallel_searches`

The concurrency claim is about interleavings, so the semaphore protocol is
modelled as a labelled transition system: each jurisdiction task is waiting
(created, not yet through `async with semaphore`), running (holding a
semaphore permit — exactly the span in which `_execute_single_search` has set
the task IN_PROGRESS), or finished (terminal, permit released). -/

/-- Scheduling phase of one jurisdiction task. -/
inductive TaskPhase
  | waiting | running | finished
deriving DecidableEq, Repr

/-- Scheduler state: the phase of each task and the semaphore's available
permit count. -/
structure SemState where
  phases : List TaskPhase
  avail : Nat
deriving Repr

/-- Number of tasks currently holding a permit, i.e. in the IN_PROGRESS
span of `_execute_single_search`. -/
def countRunning (s : SemState) : Nat :=
  s.phases.countP (fun p => decide (p = TaskPhase.running))

/-- One scheduler transition: a waiting task acquires a permit when one is
available, or a running task reaches a terminal state and releases its
permit. -/
inductive SemStep : SemState → SemState → Prop
  | acquire (s : SemState) (i : Nat)
      (hi : s.phases.get? i = some TaskPhase.waiting) (ha : 0 < s.avail) :
      SemStep s ⟨s.phases.set i TaskPhase.running, s.avail - 1⟩
  | release (s : SemState) (i : Nat)
      (hi : s.phases.get? i = some TaskPhase.running) :
      SemStep s ⟨s.phases.set i TaskPhase.finished, s.avail + 1⟩

/-- Initial state for a request with `m` jurisdiction tasks under
`asyncio.Semaphore(k)`. -/
def initSched (k m : Nat) : SemState :=
  ⟨List.replicate m TaskPhase.waiting, k⟩

/-- States reachable during the execution of `_execute_parallel_searches`
with a semaphore of size `k`. -/
inductive SchedReachable (k : Nat) : SemState → Prop
  | init (m : Nat) : SchedReachable k (initSched k m)
  | step {s t : SemState} : SchedReachable k s → SemStep s t →
      SchedReachable k t

/-- A task outcome is terminal with its error recorded: COMPLETED, or FAILED
with an error message present. -/
def terminalOutcome (t : SearchTask) : Bool :=
  decide (t.status = SearchStatus.completed)
    || (decide (t.status = SearchStatus.failed) && t.error.isSome)

/-! ## Concrete fixtures used to instantiate the theorems -/

/-- An identity stand-in for the md5 hex digest in concrete evaluations. -/
def idHash : String → String := fun s => s

/-- A fresh, empty document cache with the agent's 1-hour TTL. -/
def emptyCache : DocumentCache := { ttl_seconds := 3600, store := fun _ => none }

/-- A concrete single-jurisdiction task. -/
def taskAlpha : SearchTask :=
  { task_id := "ST_Alpha_0", county := "Alpha", state := "ST",
    criteria := { parcel_number := some "12-345-6789" } }

/-- A concrete already-authenticated connector instance. -/
def connAlphaAuthed : Connector :=
  { county := "Alpha", state := "ST", access_method := AccessMethod.mock,
    authenticated := true }

/-- A concrete document with a recording date. -/
def docAlpha : LandRecordDocument :=
  { document_id := "doc-1", county := "Alpha", state := "ST",
    recording_date := some 5, document_type := DocumentType.deed }

/-- Oracle: all steps succeed, the unified search returns no documents. -/
def oracleEmptyResult : ConnOracle :=
  { create_connector := Except.ok connAlphaAuthed,
    authenticate := Except.ok true,
    unified_search := Except.ok [] }

/-- Oracle: all steps succeed, the unified search returns one document. -/
def oracleOneDoc : ConnOracle :=
  { create_connector := Except.ok connAlphaAuthed,
    authenticate := Except.ok true,
    unified_search := Except.ok [docAlpha] }

/-- Oracle: connector construction and authentication succeed, the unified
search raises. -/
def oracleSearchRaises : ConnOracle :=
  { create_connector := Except.ok connAlphaAuthed,
    authenticate := Except.ok true,
    unified_search := Except.error "Connection timeout" }

/-- A document with no recording date, sharing its id with `docWithDate`. -/
def docNoDate : LandRecordDocument :=
  { document_id := "X", county := "Alpha", state := "ST", book := some "1" }

/-- A dated document sharing its id with `docNoDate`. -/
def docWithDate : LandRecordDocument :=
  { document_id := "X", county := "Alpha", state := "ST", book := some "2",
    recording_date := some 5 }

/-- A connector behaviour whose parcel search returns two documents sharing
one document id, the first lacking a recording date. -/
def behaviorDup : ConnectorBehavior :=
  { search_by_parcel := fun _ => [docNoDate, docWithDate],
    search_by_address := fun _ => [],
    search_by_owner := fun _ => [],
    search_by_instrument := fun _ _ _ => none }

/-- Criteria populating only the parcel field, with a date range start. -/
def criteriaDated : SearchCriteria :=
  { parcel_number := some "P", start_date := some 0 }

/-- A task identical to `taskAlpha` in jurisdiction and identifying fields
(parcel/address/owner) but with a different date range and result cap; by
design these differences are not part of the cache fingerprint, so it shares
`taskAlpha`'s cache entry. -/
def taskAlphaOtherRange : SearchTask :=
  { task_id := "ST_Alpha_1", county := "Alpha", state := "ST",
    criteria := { parcel_number := some "12-345-6789",
                  start_date := some 0, end_date := some 100,
                  max_results := 50 } }

/-- A dated document sharing its id with `docDatedB`; survives the
`criteriaDated` date filter. -/
def docDatedA : LandRecordDocument :=
  { document_id := "Y", county := "Alpha", state := "ST", book := some "3",
    recording_date := some 7 }

/-- A second dated document with the same id as `docDatedA`; also survives
the `criteriaDated` date filter. -/
def docDatedB : LandRecordDocument :=
  { document_id := "Y", county := "Alpha", state := "ST", book := some "4",
    recording_date := some 9 }

/-- A connector behaviour whose parcel search returns a duplicate pair both
of which survive the date filter. -/
def behaviorDupSurvive : ConnectorBehavior :=
  { search_by_parcel := fun _ => [docDatedA, docDatedB],
    search_by_address := fun _ => [],
    search_by_owner := fun _ => [],
    search_by_instrument := fun _ _ _ => none }

/-- A request over a single jurisdiction, all other fields default
(in particular `timeout_seconds = 300`). -/
def reqOneCounty : TitleSearchRequest :=
  { parcel_number := some "12-345-6789", counties := [("Alpha", "ST")] }

/-- A per-task outcome in which the task finished successfully. -/
def runAllOk : SearchTask → Except String SearchTask :=
  fun t => Except.ok { t with status := SearchStatus.completed }

/-- A generic-construction oracle that always fails (no connector type beyond
the two special-cased ones is constructible here). -/
def noGeneric : String → List (String × String) → Except String Connector :=
  fun t _ => Except.error ("cannot construct " ++ t)

/-- A county whose only access strategy requires credentials. -/
def configAllFail : CountyConfig :=
  mkCountyConfig
    { county := "Foo", state := "XX", fips_code := "99999",
      connectors := [ { connector_type := "montgomery_md", priority := 1,
                        access_method := AccessMethod.web_scraper,
                        requires_auth := true } ] }

/-- A registry whose single county has only one strategy, which requires
credentials that are not supplied, so every construction attempt fails. -/
def registryAllFail : CountyRegistry :=
  addCounty { counties := [], connector_classes := ["mock", "montgomery_md"] }
    configAllFail

/-! ## Aggregation lemmas -/

theorem aggStep_searched (r : TitleSearchResult) (t : SearchTask) :
    (aggStep r t).counties_searched = r.counties_searched + 1 := by
  by_cases hts : t.status = SearchStatus.completed <;> simp [aggStep, hts]

theorem aggStep_succ_add_failed (r : TitleSearchResult) (t : SearchTask) :
    (aggStep r t).counties_succeeded + (aggStep r t).counties_failed
      = r.counties_succeeded + r.counties_failed + 1 := by
  by_cases hts : t.status = SearchStatus.completed <;>
    simp [aggStep, hts] <;> omega

theorem aggStep_succ_le (r : TitleSearchResult) (t : SearchTask) :
    (aggStep r t).counties_succeeded ≤ r.counties_succeeded + 1 := by
  by_cases hts : t.status = SearchStatus.completed <;> simp [aggStep, hts]

theorem foldl_aggStep_counts (l : List SearchTask) (r : TitleSearchResult) :
    (l.foldl aggStep r).counties_searched = r.counties_searched + l.length ∧
    (l.foldl aggStep r).counties_succeeded
        + (l.foldl aggStep r).counties_failed
      = r.counties_succeeded + r.counties_failed + l.length ∧
    (l.foldl aggStep r).counties_succeeded
      ≤ r.counties_succeeded + l.length := by
  induction l generalizing r with
  | nil => simp
  | cons t ts ih =>
    simp only [List.foldl_cons, List.length_cons]
    obtain ⟨h1, h2, h3⟩ := ih (aggStep r t)
    have hs := aggStep_searched r t
    have hsf := aggStep_succ_add_failed r t
    have hsl := aggStep_succ_le r t
    exact ⟨by omega, by omega, by omega⟩

theorem aggregateResult_searched (r0 : TitleSearchResult) (e : Int)
    (l : List SearchTask) :
    (aggregateResult r0 e l).counties_searched
      = (l.foldl aggStep r0).counties_searched := rfl

theorem aggregateResult_succeeded (r0 : TitleSearchResult) (e : Int)
    (l : List SearchTask) :
    (aggregateResult r0 e l).counties_succeeded
      = (l.foldl aggStep r0).counties_succeeded := rfl

theorem aggregateResult_failed (r0 : TitleSearchResult) (e : Int)
    (l : List SearchTask) :
    (aggregateResult r0 e l).counties_failed
      = (l.foldl aggStep r0).counties_failed := rfl

theorem aggregateResult_completed_at (r0 : TitleSearchResult) (e : Int)
    (l : List SearchTask) :
    (aggregateResult r0 e l).completed_at = some e := rfl

theorem aggregateResult_status (r0 : TitleSearchResult) (e : Int)
    (l : List SearchTask) :
    (aggregateResult r0 e l).status
      = deriveStatus { (l.foldl aggStep r0) with
          total_documents := (l.foldl aggStep r0).all_documents.length,
          completed_at := some e } := rfl

theorem deriveStatus_counts (r : TitleSearchResult) :
    deriveStatus r
      = (if r.counties_succeeded = r.counties_searched then
            SearchStatus.completed
         else if 0 < r.counties_succeeded then SearchStatus.partialSuccess
         else SearchStatus.failed) := rfl

theorem searchAgent_nonempty (h : String → String) (now endTime : Int)
    (request : TitleSearchRequest)
    (runTask : SearchTask → Except String SearchTask)
    (hn : request.counties ≠ []) :
    searchAgent h now endTime request runTask
      = aggregateResult
          { request_id :=
              (h (optStr request.parcel_number ++ optStr request.property_address
                  ++ toString now)).take 16,
            status := SearchStatus.in_progress, started_at := now }
          endTime
          (executeParallel runTask
            (request.counties.map
              (fun cs => createSearchTask h now cs.1 cs.2 request))) := by
  have hne : request.counties.isEmpty = false := by
    cases hc : request.counties with
    | nil => exact absurd hc hn
    | cons a l => rfl
  unfold searchAgent
  rw [hne]
  rfl

/-- Claim C1: for every request whose jurisdiction list has `n ≥ 1` entries
that reaches aggregation, the returned result satisfies
`counties_searched = n`, `counties_succeeded + counties_failed = n`, and the
derived status obeys: COMPLETED iff `counties_succeeded = n`, PARTIAL iff
`0 < counties_succeeded < n`, FAILED iff `counties_succeeded = 0`. -/
theorem C1_aggregate_counts_and_status (h : String → String)
    (now endTime : Int) (request : TitleSearchRequest)
    (runTask : SearchTask → Except String SearchTask)
    (hn : request.counties ≠ []) :
    (searchAgent h now endTime request runTask).counties_searched
        = request.counties.length ∧
    (searchAgent h now endTime request runTask).counties_succeeded
        + (searchAgent h now endTime request runTask).counties_failed
        = request.counties.length ∧
    ((searchAgent h now endTime request runTask).status = SearchStatus.completed
        ↔ (searchAgent h now endTime request runTask).counties_succeeded
            = request.counties.length) ∧
    ((searchAgent h now endTime request runTask).status
          = SearchStatus.partialSuccess
        ↔ 0 < (searchAgent h now endTime request runTask).counties_succeeded
          ∧ (searchAgent h now endTime request runTask).counties_succeeded
              < request.counties.length) ∧
    ((searchAgent h now endTime request runTask).status = SearchStatus.failed
        ↔ (searchAgent h now endTime request runTask).counties_succeeded = 0) := by
  have hN : 0 < request.counties.length := by
    cases hc : request.counties with
    | nil => exact absurd hc hn
    | cons a l => simp
  rw [searchAgent_nonempty h now endTime request runTask hn]
  set r0 : TitleSearchResult :=
    { request_id :=
        (h (optStr request.parcel_number ++ optStr request.property_address
            ++ toString now)).take 16,
      status := SearchStatus.in_progress, started_at := now } with hr0
  set l : List SearchTask :=
    executeParallel runTask
      (request.counties.map (fun cs => createSearchTask h now cs.1 cs.2 request))
    with hl
  have hlen : l.length = request.counties.length := by
    simp [hl, executeParallel]
  obtain ⟨h1, h2, h3⟩ := foldl_aggStep_counts l r0
  have hz0 : r0.counties_searched = 0 := rfl
  have hz1 : r0.counties_succeeded = 0 := rfl
  have hz2 : r0.counties_failed = 0 := rfl
  rw [aggregateResult_searched, aggregateResult_succeeded,
      aggregateResult_failed, aggregateResult_status, deriveStatus_counts]
  simp only []
  set F := l.foldl aggStep r0 with hF
  refine ⟨by omega, by omega, ?_, ?_, ?_⟩ <;>
  · split_ifs with hc1 hc2 <;> simp <;> omega

/-- Witness for C1: a concrete one-county request through the agent. -/
theorem C1_aggregate_counts_and_status_witness :
    (searchAgent idHash 0 1 reqOneCounty runAllOk).counties_searched
        = reqOneCounty.counties.length ∧
    (searchAgent idHash 0 1 reqOneCounty runAllOk).counties_succeeded
        + (searchAgent idHash 0 1 reqOneCounty runAllOk).counties_failed
        = reqOneCounty.counties.length ∧
    ((searchAgent idHash 0 1 reqOneCounty runAllOk).status
          = SearchStatus.completed
        ↔ (searchAgent idHash 0 1 reqOneCounty runAllOk).counties_succeeded
            = reqOneCounty.counties.length) ∧
    ((searchAgent idHash 0 1 reqOneCounty runAllOk).status
          = SearchStatus.partialSuccess
        ↔ 0 < (searchAgent idHash 0 1 reqOneCounty runAllOk).counties_succeeded
          ∧ (searchAgent idHash 0 1 reqOneCounty runAllOk).counties_succeeded
              < reqOneCounty.counties.length) ∧
    ((searchAgent idHash 0 1 reqOneCounty runAllOk).status = SearchStatus.failed
        ↔ (searchAgent idHash 0 1 reqOneCounty runAllOk).counties_succeeded
            = 0) :=
  C1_aggregate_counts_and_status idHash 0 1 reqOneCounty runAllOk (by decide)

/-! ## C10: the empty-jurisdiction early return -/

/-- Claim C10: for every request whose jurisdiction list is empty, `search`
returns immediately a result with status FAILED, all three county counts zero,
an empty per-jurisdiction document map, exactly one error record that carries
only an error message and no jurisdiction field, and `completed_at` left
unset — unlike every result that reaches aggregation, whose `completed_at`
is always set. -/
theorem C10_empty_request_early_return :
    (∀ (h : String → String) (now endTime : Int)
       (request : TitleSearchRequest)
       (runTask : SearchTask → Except String SearchTask),
       request.counties = [] →
       (searchAgent h now endTime request runTask).status
           = SearchStatus.failed ∧
       (searchAgent h now endTime request runTask).counties_searched = 0 ∧
       (searchAgent h now endTime request runTask).counties_succeeded = 0 ∧
       (searchAgent h now endTime request runTask).counties_failed = 0 ∧
       (searchAgent h now endTime request runTask).documents_by_county = [] ∧
       (searchAgent h now endTime request runTask).errors
           = [{ county := none,
                error := "No counties specified for search" }] ∧
       (searchAgent h now endTime request runTask).completed_at = none) ∧
    (∀ (h : String → String) (now endTime : Int)
       (request : TitleSearchRequest)
       (runTask : SearchTask → Except String SearchTask),
       request.counties ≠ [] →
       (searchAgent h now endTime request runTask).completed_at
         = some endTime) := by
  constructor
  · intro h now endTime request runTask hc
    obtain ⟨pn, pa, co, counties, yb, dt, im, il, ie, ri, md, ts⟩ := request
    cases hc
    exact ⟨rfl, rfl, rfl, rfl, rfl, rfl, rfl⟩
  · intro h now endTime request runTask hn
    rw [searchAgent_nonempty h now endTime request runTask hn,
        aggregateResult_completed_at]

/-- Witness for C10: the early return on a concrete empty request, and the
set `completed_at` on a concrete nonempty one. -/
theorem C10_empty_request_early_return_witness :
    ((searchAgent idHash 0 1 { counties := [] } runAllOk).status
         = SearchStatus.failed ∧
     (searchAgent idHash 0 1 { counties := [] } runAllOk).counties_searched
         = 0 ∧
     (searchAgent idHash 0 1 { counties := [] } runAllOk).counties_succeeded
         = 0 ∧
     (searchAgent idHash 0 1 { counties := [] } runAllOk).counties_failed
         = 0 ∧
     (searchAgent idHash 0 1 { counties := [] } runAllOk).documents_by_county
         = [] ∧
     (searchAgent idHash 0 1 { counties := [] } runAllOk).errors
         = [{ county := none,
              error := "No counties specified for search" }] ∧
     (searchAgent idHash 0 1 { counties := [] } runAllOk).completed_at
         = none) ∧
    (searchAgent idHash 0 1 reqOneCounty runAllOk).completed_at = some 1 :=
  ⟨C10_empty_request_early_return.1 idHash 0 1 { counties := [] } runAllOk rfl,
   C10_empty_request_early_return.2 idHash 0 1 reqOneCounty runAllOk
     (by decide)⟩

/-! ## C2: exceptions are contained at the task boundary -/

theorem executeSingle_terminal (h : String → String) (cache : DocumentCache)
    (tS tE : Int) (oracle : ConnOracle) (t0 : SearchTask) :
    terminalOutcome (executeSingle h cache tS tE oracle t0).1 = true := by
  unfold executeSingle
  dsimp only
  split
  · rfl
  · split
    · rfl
    · split
      · rfl
      · split
        · rfl
        · rfl

/-- Claim C2: every exception raised during a task's path is caught at the
task boundary and recorded, the task always ends terminal (COMPLETED, or
FAILED with its error recorded), and — whether the per-task coroutine returns
normally or the join collects a raised exception — the orchestrator receives
one terminal task per jurisdiction, so no exception propagates out of the
search call. (In this embedding, `executeSingle` returning a plain task
rather than an `Except` is the totality of the `try/except` boundary.) -/
theorem C2_exception_contained_at_task_boundary :
    (∀ (h : String → String) (cache : DocumentCache) (tS tE : Int)
       (oracle : ConnOracle) (t0 : SearchTask),
       terminalOutcome (executeSingle h cache tS tE oracle t0).1 = true) ∧
    (∀ (h : String → String) (cache : DocumentCache) (tS tE : Int)
       (oracles : SearchTask → ConnOracle) (tasks : List SearchTask),
       (executeParallel
           (fun t => Except.ok (executeSingle h cache tS tE (oracles t) t).1)
           tasks).length = tasks.length ∧
       (executeParallel
           (fun t => Except.ok (executeSingle h cache tS tE (oracles t) t).1)
           tasks).all terminalOutcome = true) ∧
    (∀ (msgs : SearchTask → String) (tasks : List SearchTask),
       (executeParallel (fun t => Except.error (msgs t)) tasks).all
           terminalOutcome = true) := by
  refine ⟨fun h cache tS tE oracle t0 =>
      executeSingle_terminal h cache tS tE oracle t0, ?_, ?_⟩
  · intro h cache tS tE oracles tasks
    constructor
    · simp [executeParallel]
    · rw [List.all_eq_true]
      intro x hx
      rw [executeParallel, List.mem_map] at hx
      obtain ⟨t, _, rfl⟩ := hx
      exact executeSingle_terminal h cache tS tE (oracles t) t
  · intro msgs tasks
    rw [List.all_eq_true]
    intro x hx
    rw [executeParallel, List.mem_map] at hx
    obtain ⟨t, _, rfl⟩ := hx
    rfl

/-! ## De-duplication lemmas for the unified search -/

theorem dedupById_sublist (l : List LandRecordDocument) (seen : List String) :
    (dedupById l seen).Sublist l := by
  induction l generalizing seen with
  | nil => simp [dedupById]
  | cons d ds ih =>
    unfold dedupById
    by_cases hd : d.document_id ∈ seen
    · rw [if_pos hd]
      exact (ih seen).cons d
    · rw [if_neg hd]
      exact (ih _).cons₂ d

theorem dedupById_mem (l : List LandRecordDocument) (seen : List String)
    (d : LandRecordDocument) (hd : d ∈ dedupById l seen) :
    d.document_id ∉ seen ∧
    l.find? (fun x => x.document_id == d.document_id) = some d := by
  induction l generalizing seen with
  | nil => simp [dedupById] at hd
  | cons x xs ih =>
    unfold dedupById at hd
    by_cases hx : x.document_id ∈ seen
    · rw [if_pos hx] at hd
      obtain ⟨hns, hfind⟩ := ih seen hd
      have hne : (x.document_id == d.document_id) = false := by
        refine beq_eq_false_iff_ne.mpr ?_
        intro he
        exact hns (he ▸ hx)
      exact ⟨hns, by rw [List.find?_cons_of_neg _ (by simp [hne]), hfind]⟩
    · rw [if_neg hx] at hd
      rcases List.mem_cons.mp hd with rfl | hd'
      · exact ⟨hx, by rw [List.find?_cons_of_pos _ (by simp)]⟩
      · obtain ⟨hns, hfind⟩ := ih (x.document_id :: seen) hd'
        have hxd : (x.document_id == d.document_id) = false := by
          refine beq_eq_false_iff_ne.mpr ?_
          intro he
          exact hns (he ▸ List.mem_cons_self _ _)
        refine ⟨fun hs => hns (List.mem_cons_of_mem _ hs), ?_⟩
        rw [List.find?_cons_of_neg _ (by simp [hxd]), hfind]

theorem dedupById_ids_nodup (l : List LandRecordDocument)
    (seen : List String) :
    ((dedupById l seen).map (fun d => d.document_id)).Nodup := by
  induction l generalizing seen with
  | nil => simp [dedupById]
  | cons x xs ih =>
    unfold dedupById
    by_cases hx : x.document_id ∈ seen
    · rw [if_pos hx]
      exact ih seen
    · rw [if_neg hx]
      simp only [List.map_cons, List.nodup_cons]
      refine ⟨?_, ih _⟩
      intro hmem
      obtain ⟨d, hd, hid⟩ := List.mem_map.mp hmem
      have hni := (dedupById_mem xs (x.document_id :: seen) d hd).1
      rw [hid] at hni
      exact hni (List.mem_cons_self _ _)

theorem dedupById_count_one (l : List LandRecordDocument)
    (seen : List String) (d : LandRecordDocument) :
    d ∈ l → d.document_id ∉ seen →
    (dedupById l seen).countP (fun x => x.document_id == d.document_id)
      = 1 := by
  induction l generalizing seen with
  | nil =>
    intro hdl _
    simp at hdl
  | cons x xs ih =>
    intro hdl hds
    unfold dedupById
    by_cases hx : x.document_id ∈ seen
    · rw [if_pos hx]
      rcases List.mem_cons.mp hdl with rfl | hd'
      · exact absurd hx hds
      · exact ih seen hd' hds
    · rw [if_neg hx]
      rw [List.countP_cons]
      by_cases hid : x.document_id = d.document_id
      · have hone : (x.document_id == d.document_id) = true :=
          beq_iff_eq.mpr hid
        have hzero : (dedupById xs (x.document_id :: seen)).countP
            (fun y => y.document_id == d.document_id) = 0 := by
          rw [List.countP_eq_zero]
          intro a ha hbeq
          have hna := (dedupById_mem xs (x.document_id :: seen) a ha).1
          rw [beq_iff_eq.mp hbeq, ← hid] at hna
          exact hna (List.mem_cons_self _ _)
        simp [hone, hzero]
      · have hzero : (x.document_id == d.document_id) = false :=
          beq_eq_false_iff_ne.mpr hid
        rcases List.mem_cons.mp hdl with rfl | hd'
        · exact absurd rfl hid
        · have hds' : d.document_id ∉ x.document_id :: seen := by
            intro hmem
            rcases List.mem_cons.mp hmem with h1 | h2
            · exact hid h1.symm
            · exact hds h2
          simp [hzero, ih (x.document_id :: seen) hd' hds']

/-! ## C7: unified-search de-duplication -/

/-- Claim C7 as stated is false: de-duplication runs after the document-type
and date filters, so when the first occurrence of a document id is filtered
out, the result keeps a later occurrence, not the first occurrence in the
concatenated per-field search results. Concretely: a parcel search returns
two documents sharing id "X", the first without a recording date; with a
`start_date` set, the result is the second document, while the first
occurrence of id "X" in the concatenated stream is the first document. -/
theorem C7_counterexample :
    connectorSearch behaviorDup criteriaDated = [docWithDate] ∧
    concatResults behaviorDup criteriaDated = [docNoDate, docWithDate] ∧
    (concatResults behaviorDup criteriaDated).find?
        (fun x => x.document_id == docWithDate.document_id) = some docNoDate ∧
    docNoDate ≠ docWithDate := by
  refine ⟨?_, ?_, ?_, ?_⟩ <;> decide

/-- Claim C7 (amended): for every criteria and connector, the unified-search
result has pairwise distinct document ids, is an order-preserving sublist of
the filtered (document-type and date) concatenation of the per-field search
results, keeps for each document id the first occurrence in that filtered
stream, and has length at most `max_results`; moreover, whenever the
de-duplicated list fits the result cap, every document surviving the filters
is represented exactly once in the result — so a duplicate pair both
surviving the filters yields exactly one document, the first encountered. -/
theorem C7_amended_unified_search_dedup (c : ConnectorBehavior)
    (cr : SearchCriteria) :
    ((connectorSearch c cr).map (fun d => d.document_id)).Nodup ∧
    (connectorSearch c cr).Sublist (dateFiltered c cr) ∧
    (∀ d ∈ connectorSearch c cr,
        (dateFiltered c cr).find? (fun x => x.document_id == d.document_id)
          = some d) ∧
    (connectorSearch c cr).length ≤ cr.max_results ∧
    ((dedupById (dateFiltered c cr) []).length ≤ cr.max_results →
      ∀ d ∈ dateFiltered c cr,
        (connectorSearch c cr).countP
          (fun x => x.document_id == d.document_id) = 1) := by
  refine ⟨?_, ?_, ?_, ?_, ?_⟩
  · have hnd := dedupById_ids_nodup (dateFiltered c cr) []
    unfold connectorSearch
    exact hnd.sublist ((List.take_sublist _ _).map _)
  · exact (List.take_sublist _ _).trans (dedupById_sublist _ _)
  · intro d hd
    have hd1 : d ∈ dedupById (dateFiltered c cr) [] :=
      List.take_subset _ _ hd
    exact (dedupById_mem _ _ d hd1).2
  · exact List.length_take_le _ _
  · intro hcap d hd
    unfold connectorSearch
    rw [List.take_of_length_le hcap]
    exact dedupById_count_one (dateFiltered c cr) [] d hd (by simp)

/-- Witness for the amended C7, at a duplicate pair that both survive the
filters: the filtered stream holds both occurrences of id "Y", the result is
exactly the first of them, it is the first occurrence of its id in the
filtered stream, and the result carries exactly one document with that id. -/
theorem C7_amended_unified_search_dedup_witness :
    dateFiltered behaviorDupSurvive criteriaDated = [docDatedA, docDatedB] ∧
    connectorSearch behaviorDupSurvive criteriaDated = [docDatedA] ∧
    (dateFiltered behaviorDupSurvive criteriaDated).find?
        (fun x => x.document_id == docDatedA.document_id) = some docDatedA ∧
    (connectorSearch behaviorDupSurvive criteriaDated).countP
        (fun x => x.document_id == docDatedA.document_id) = 1 :=
  ⟨by decide, by decide,
   (C7_amended_unified_search_dedup behaviorDupSurvive criteriaDated).2.2.1
     docDatedA (by decide),
   (C7_amended_unified_search_dedup behaviorDupSurvive
       criteriaDated).2.2.2.2 (by decide) docDatedA (by decide)⟩

/-! ## C9: documents without a recording date are dropped under date filters -/

/-- Claim C9: whenever `start_date` (or `end_date`) is set, the unified
search excludes every document whose recording date is absent; and the
criteria the orchestrator derives from a request always set both
`start_date` and `end_date`, so every orchestrated jurisdiction search drops
documents lacking a recording date. -/
theorem C9_dateless_documents_excluded :
    (∀ (c : ConnectorBehavior) (cr : SearchCriteria),
       (cr.start_date ≠ none ∨ cr.end_date ≠ none) →
       ∀ d ∈ connectorSearch c cr, d.recording_date ≠ none) ∧
    (∀ (h : String → String) (now : Int) (county state : String)
       (request : TitleSearchRequest),
       (createSearchTask h now county state request).criteria.start_date
           = some (now - 86400 * (365 * (request.years_back : Int))) ∧
       (createSearchTask h now county state request).criteria.end_date
           = some now) := by
  constructor
  · intro c cr hdate d hd
    have hd2 : d ∈ dateFiltered c cr :=
      (dedupById_sublist _ _).subset (List.take_subset _ _ hd)
    rcases hdate with h1 | h2
    · obtain ⟨s, hs⟩ := Option.ne_none_iff_exists'.mp h1
      have hd3 : d ∈ startDateFiltered c cr := by
        unfold dateFiltered at hd2
        cases he : cr.end_date with
        | some e =>
          rw [he] at hd2
          exact (List.mem_filter.mp hd2).1
        | none =>
          rw [he] at hd2
          exact hd2
      unfold startDateFiltered at hd3
      rw [hs] at hd3
      have hp := (List.mem_filter.mp hd3).2
      cases hr : d.recording_date with
      | none => rw [hr] at hp; simp at hp
      | some r => simp [hr]
    · obtain ⟨e, he⟩ := Option.ne_none_iff_exists'.mp h2
      unfold dateFiltered at hd2
      rw [he] at hd2
      have hp := (List.mem_filter.mp hd2).2
      cases hr : d.recording_date with
      | none => rw [hr] at hp; simp at hp
      | some r => simp [hr]
  · intro h now county state request
    exact ⟨rfl, rfl⟩

/-- Witness for C9: the dated document survives a concrete filtered search
(so applying the theorem to it is legitimate), and a concrete task built by
the orchestrator has its start date set. -/
theorem C9_dateless_documents_excluded_witness :
    docWithDate.recording_date ≠ none ∧
    (createSearchTask idHash 0 "Alpha" "ST" reqOneCounty).criteria.start_date
      = some (0 - 86400 * (365 * (reqOneCounty.years_back : Int))) :=
  ⟨C9_dateless_documents_excluded.1 behaviorDup criteriaDated
     (Or.inl (by decide)) docWithDate (by decide),
   (C9_dateless_documents_excluded.2 idHash 0 "Alpha" "ST" reqOneCounty).1⟩

/-! ## C3: cache idempotence -/

theorem cacheGet_ttl (now : Int) (c : DocumentCache) (k : String) :
    (cacheGet now c k).1.ttl_seconds = c.ttl_seconds := by
  unfold cacheGet
  cases c.store k with
  | none => rfl
  | some entry =>
    dsimp only
    split <;> rfl

theorem executeSingle_cache_hit (h : String → String) (c : DocumentCache)
    (tS tE : Int) (o : ConnOracle) (t : SearchTask)
    (hhit : truthyDocs
        (cacheGet tS c (makeKey h t.county t.state t.criteria)).2 = true) :
    (executeSingle h c tS tE o t).1.results
        = (cacheGet tS c (makeKey h t.county t.state t.criteria)).2.getD [] ∧
    (executeSingle h c tS tE o t).1.status = SearchStatus.completed ∧
    (executeSingle h c tS tE o t).2.1
        = (cacheGet tS c (makeKey h t.county t.state t.criteria)).1 ∧
    (executeSingle h c tS tE o t).2.2 = [Event.cacheLookup] := by
  unfold executeSingle
  simp only [hhit, if_true]
  refine ⟨?_, ?_, ?_, ?_⟩ <;> trivial

theorem executeSingle_search_and_completed (h : String → String)
    (c : DocumentCache) (tS tE : Int) (o : ConnOracle) (t : SearchTask)
    (hsearch : Event.connectorSearch ∈ (executeSingle h c tS tE o t).2.2)
    (hcomp : (executeSingle h c tS tE o t).1.status = SearchStatus.completed) :
    truthyDocs (cacheGet tS c (makeKey h t.county t.state t.criteria)).2
        = false ∧
    ∃ conn docs, o.create_connector = Except.ok conn ∧
      o.unified_search = Except.ok docs ∧
      (executeSingle h c tS tE o t).1.results = docs ∧
      (executeSingle h c tS tE o t).2.1
        = cacheSet tS
            (cacheGet tS c (makeKey h t.county t.state t.criteria)).1
            (makeKey h t.county t.state t.criteria) docs := by
  by_cases hmiss : truthyDocs
      (cacheGet tS c (makeKey h t.county t.state t.criteria)).2 = true
  · exfalso
    unfold executeSingle at hsearch
    simp only [hmiss, if_true] at hsearch
    simp at hsearch
  · have hmiss' : truthyDocs
        (cacheGet tS c (makeKey h t.county t.state t.criteria)).2 = false :=
      Bool.eq_false_iff.mpr hmiss
    refine ⟨hmiss', ?_⟩
    cases hcc : o.create_connector with
    | error e =>
      exfalso
      unfold executeSingle at hsearch
      simp only [hmiss', hcc, Bool.false_eq_true, if_false] at hsearch
      simp at hsearch
    | ok conn =>
      by_cases hca : conn.authenticated
      · cases hus : o.unified_search with
        | error e =>
          exfalso
          unfold executeSingle at hcomp
          simp only [hmiss', hcc, hca, hus, Bool.false_eq_true, if_false,
            failTask, if_true] at hcomp
          exact absurd hcomp (by decide)
        | ok docs =>
          refine ⟨conn, docs, rfl, rfl, ?_, ?_⟩ <;>
          · unfold executeSingle
            simp [hmiss', hcc, hca, hus]
      · cases hau : o.authenticate with
        | error e =>
          exfalso
          unfold executeSingle at hsearch
          simp only [hmiss', hcc, hca, hau, Bool.false_eq_true,
            if_false] at hsearch
          simp at hsearch
        | ok b =>
          cases hus : o.unified_search with
          | error e =>
            exfalso
            unfold executeSingle at hcomp
            simp only [hmiss', hcc, hca, hau, hus, Bool.false_eq_true,
              if_false, failTask] at hcomp
            exact absurd hcomp (by decide)
          | ok docs =>
            refine ⟨conn, docs, rfl, rfl, ?_, ?_⟩ <;>
            · unfold executeSingle
              simp [hmiss', hcc, hca, hau, hus]

/-- Claim C3 is false as stated for an empty first result: the agent tests
the cached value with Python truthiness (`if cached_results:`), so a cached
empty document list is treated as a miss. Concretely: a first search
completes with an empty list (and stores it), yet an identical second search
10 seconds later — far inside the 3600-second TTL — still performs an
underlying connector search. -/
theorem C3_counterexample :
    (executeSingle idHash emptyCache 0 1 oracleEmptyResult taskAlpha).1.status
        = SearchStatus.completed ∧
    (executeSingle idHash emptyCache 0 1 oracleEmptyResult taskAlpha).1.results
        = [] ∧
    Event.connectorSearch ∈
      (executeSingle idHash
        (executeSingle idHash emptyCache 0 1 oracleEmptyResult taskAlpha).2.1
        10 11 oracleEmptyResult taskAlpha).2.2 := by
  refine ⟨?_, ?_, ?_⟩ <;> decide

/-- Claim C3 (amended): for two successive single-jurisdiction searches
identical in county, state and the criteria identifying fields
(parcel/address/owner — exactly the fields hashed into the cache
fingerprint; date range and result cap may differ and share the entry by
design), where the first performs an underlying connector search and
completes with a non-empty document list, and the second starts within the
TTL window of the first, the second execution performs no underlying
connector search and its document list equals the first's. -/
theorem C3_amended_cache_idempotence
    (h : String → String) (c0 : DocumentCache) (t1 t2 : SearchTask)
    (o1 o2 : ConnOracle) (s1 e1 s2 e2 : Int)
    (hco : t2.county = t1.county) (hst : t2.state = t1.state)
    (hpn : t2.criteria.parcel_number = t1.criteria.parcel_number)
    (hpa : t2.criteria.property_address = t1.criteria.property_address)
    (hon : t2.criteria.owner_name = t1.criteria.owner_name)
    (hsearch : Event.connectorSearch ∈ (executeSingle h c0 s1 e1 o1 t1).2.2)
    (hcomp : (executeSingle h c0 s1 e1 o1 t1).1.status
        = SearchStatus.completed)
    (hne : (executeSingle h c0 s1 e1 o1 t1).1.results ≠ [])
    (_h2after1 : s1 ≤ s2) (httl : s2 - s1 < c0.ttl_seconds) :
    Event.connectorSearch ∉
      (executeSingle h (executeSingle h c0 s1 e1 o1 t1).2.1 s2 e2 o2 t2).2.2 ∧
    (executeSingle h (executeSingle h c0 s1 e1 o1 t1).2.1 s2 e2 o2 t2).1.results
      = (executeSingle h c0 s1 e1 o1 t1).1.results := by
  obtain ⟨hmiss, conn, docs, hcc, hus, hres, hc2⟩ :=
    executeSingle_search_and_completed h c0 s1 e1 o1 t1 hsearch hcomp
  have hdocs : docs ≠ [] := fun hd => hne (by rw [hres, hd])
  have hkey : makeKey h t2.county t2.state t2.criteria
      = makeKey h t1.county t1.state t1.criteria := by
    unfold makeKey
    rw [hco, hst, hpn, hpa, hon]
  have hstore : ((executeSingle h c0 s1 e1 o1 t1).2.1).store
      (makeKey h t2.county t2.state t2.criteria) = some (s1, docs) := by
    rw [hkey, hc2]
    simp [cacheSet]
  have httl2 : ((executeSingle h c0 s1 e1 o1 t1).2.1).ttl_seconds
      = c0.ttl_seconds := by
    rw [hc2]
    simp [cacheSet, cacheGet_ttl]
  have hcg2 : cacheGet s2 (executeSingle h c0 s1 e1 o1 t1).2.1
      (makeKey h t2.county t2.state t2.criteria)
      = ((executeSingle h c0 s1 e1 o1 t1).2.1, some docs) := by
    unfold cacheGet
    rw [hstore]
    dsimp only
    rw [if_pos (by rw [httl2]; omega)]
  have hhit : truthyDocs
      (cacheGet s2 (executeSingle h c0 s1 e1 o1 t1).2.1
        (makeKey h t2.county t2.state t2.criteria)).2 = true := by
    rw [hcg2]
    simp [truthyDocs, hdocs]
  obtain ⟨hr2, _, _, hev2⟩ :=
    executeSingle_cache_hit h (executeSingle h c0 s1 e1 o1 t1).2.1 s2 e2 o2 t2
      hhit
  constructor
  · rw [hev2]
    simp
  · rw [hr2, hcg2]
    simp [hres]

/-- Witness for the amended C3: concrete first run returning one document,
and a second run ten seconds later whose criteria differ in date range and
result cap but agree on the identifying fields — served from the cache. -/
theorem C3_amended_cache_idempotence_witness :
    Event.connectorSearch ∉
      (executeSingle idHash
        (executeSingle idHash emptyCache 0 1 oracleOneDoc taskAlpha).2.1
        10 11 oracleOneDoc taskAlphaOtherRange).2.2 ∧
    (executeSingle idHash
        (executeSingle idHash emptyCache 0 1 oracleOneDoc taskAlpha).2.1
        10 11 oracleOneDoc taskAlphaOtherRange).1.results
      = (executeSingle idHash emptyCache 0 1 oracleOneDoc taskAlpha).1.results :=
  C3_amended_cache_idempotence idHash emptyCache taskAlpha taskAlphaOtherRange
    oracleOneDoc oracleOneDoc 0 1 10 11 rfl rfl rfl rfl rfl (by decide)
    (by decide) (by decide) (by decide) (by decide)

/-! ## C5: connector close is skipped on failure (code bug) -/

/-- Claim C5 is contradicted by the code: `connector.close()` is the last
statement of the `try` block in `_execute_single_search`, so it runs only on
the fully successful path. At the concrete failing input — cache miss,
connector constructed and authenticated, unified search raises — the task is
marked FAILED and the constructed connector is never closed. -/
theorem C5_close_skipped_when_search_raises :
    (executeSingle idHash emptyCache 0 1 oracleSearchRaises taskAlpha).2.2
      = [Event.cacheLookup, Event.connectorCreated, Event.connectorSearch] ∧
    Event.connectorCreated ∈
      (executeSingle idHash emptyCache 0 1 oracleSearchRaises taskAlpha).2.2 ∧
    Event.connectorClosed ∉
      (executeSingle idHash emptyCache 0 1 oracleSearchRaises taskAlpha).2.2 ∧
    (executeSingle idHash emptyCache 0 1 oracleSearchRaises taskAlpha).1.status
      = SearchStatus.failed ∧
    (executeSingle idHash emptyCache 0 1 oracleSearchRaises taskAlpha).1.error
      = some "Connection timeout" := by
  refine ⟨?_, ?_, ?_, ?_, ?_⟩ <;> decide

/-! ## C6: the request timeout is never enforced (code bug) -/

/-- Claim C6 is contradicted by the code: `TitleSearchRequest.timeout_seconds`
(default 300) is read nowhere in the execution path — there is no per-task
deadline. At the concrete failing input, a task whose execution spans
1,000,000 seconds (far past the request's 300-second budget) still completes
with status COMPLETED and no timeout error. -/
theorem C6_timeout_never_enforced :
    reqOneCounty.timeout_seconds = 300 ∧
    (executeSingle idHash emptyCache 0 1000000 oracleOneDoc
        (createSearchTask idHash 0 "Alpha" "ST" reqOneCounty)).1.started_at
      = some 0 ∧
    (executeSingle idHash emptyCache 0 1000000 oracleOneDoc
        (createSearchTask idHash 0 "Alpha" "ST" reqOneCounty)).1.completed_at
      = some 1000000 ∧
    (executeSingle idHash emptyCache 0 1000000 oracleOneDoc
        (createSearchTask idHash 0 "Alpha" "ST" reqOneCounty)).1.status
      = SearchStatus.completed ∧
    (executeSingle idHash emptyCache 0 1000000 oracleOneDoc
        (createSearchTask idHash 0 "Alpha" "ST" reqOneCounty)).1.error
      = none := by
  refine ⟨?_, ?_, ?_, ?_, ?_⟩ <;> decide

/-! ## C4: factory failover to the stub connector -/

theorem firstSuccess_eq_none (f : ConnectorConfig → Except String Connector)
    (l : List ConnectorConfig)
    (hfail : ∀ cc ∈ l, ∃ e, f cc = Except.error e) :
    firstSuccess f l = none := by
  induction l with
  | nil => rfl
  | cons c cs ih =>
    obtain ⟨e, he⟩ := hfail c (List.mem_cons_self _ _)
    unfold firstSuccess
    rw [he]
    exact ih (fun cc hcc => hfail cc (List.mem_cons_of_mem _ hcc))

/-- Claim C4: for every registered jurisdiction with a non-empty
(priority-filtered) strategy list, if every strategy's construction fails,
`create_connector` returns the stub (mock) connector and raises nothing; in
particular, with a priority-1 strategy that fails to construct (credentials
missing) and a priority-4 stub strategy, the returned connector is the stub
connector. -/
theorem C4_factory_falls_back_to_stub :
    (∀ (gb : String → List (String × String) → Except String Connector)
       (reg : CountyRegistry) (creds : CredStore) (county state : String)
       (p : Option Nat) (config : CountyConfig),
       getCounty reg county state = some config →
       filteredConnectors config p ≠ [] →
       (∀ cc ∈ filteredConnectors config p,
          ∃ e, instantiateConnector gb reg creds cc config
            = Except.error e) →
       createConnector gb reg creds county state p
         = Except.ok (MockCountyConnector county state)) ∧
    createConnector noGeneric defaultRegistry [] "Montgomery" "MD" none
      = Except.ok (MockCountyConnector "Montgomery" "MD") := by
  constructor
  · intro gb reg creds county state p config hlook hne hfail
    unfold createConnector
    rw [hlook]
    dsimp only
    rw [if_neg (fun hemp => hne (List.isEmpty_iff.mp hemp))]
    rw [firstSuccess_eq_none _ _ hfail]
  · rfl

/-- Witness for C4: a registry whose sole strategy needs missing credentials;
every construction attempt fails and the factory yields the stub. -/
theorem C4_factory_falls_back_to_stub_witness :
    createConnector noGeneric registryAllFail [] "Foo" "XX" none
      = Except.ok (MockCountyConnector "Foo" "XX") :=
  C4_factory_falls_back_to_stub.1 noGeneric registryAllFail [] "Foo" "XX"
    none configAllFail rfl (by decide)
    (by
      intro cc hcc
      have hcc' : cc = { connector_type := "montgomery_md", priority := 1,
                         access_method := AccessMethod.web_scraper,
                         requires_auth := true } := by
        simpa [filteredConnectors, configAllFail, mkCountyConfig,
               sortByPriority, insertByPriority] using hcc
      rw [hcc']
      exact ⟨"Montgomery County MD connector requires email and password",
             rfl⟩)

/-! ## C8: the semaphore bounds simultaneous IN_PROGRESS tasks -/

theorem countP_set_of_get {α : Type} (p : α → Bool) (l : List α) (i : Nat)
    (a b : α) (hget : l.get? i = some a) :
    ((l.set i b).countP p) + (if p a then 1 else 0)
      = l.countP p + (if p b then 1 else 0) := by
  induction l generalizing i with
  | nil => simp at hget
  | cons x xs ih =>
    cases i with
    | zero =>
      simp at hget
      subst hget
      simp only [List.set, List.countP_cons]
      omega
    | succ n =>
      simp only [List.get?_cons_succ] at hget
      have := ih n hget
      simp only [List.set, List.countP_cons]
      omega

theorem countRunning_init (k m : Nat) : countRunning (initSched k m) = 0 := by
  unfold countRunning initSched
  induction m with
  | zero => rfl
  | succ n ih => simp [List.replicate_succ, List.countP_cons, ih]

theorem sched_invariant (k : Nat) (s : SemState) (hr : SchedReachable k s) :
    countRunning s + s.avail = k := by
  induction hr with
  | init m => simpa [initSched] using countRunning_init k m
  | step hreach hstep ih =>
    rename_i sPrev tNext
    cases hstep with
    | acquire i hi ha =>
      have hc := countP_set_of_get
        (fun q => decide (q = TaskPhase.running)) sPrev.phases i
        TaskPhase.waiting TaskPhase.running hi
      simp at hc
      unfold countRunning at ih ⊢
      dsimp only at ih ⊢
      omega
    | release i hi =>
      have hc := countP_set_of_get
        (fun q => decide (q = TaskPhase.running)) sPrev.phases i
        TaskPhase.running TaskPhase.finished hi
      simp at hc
      unfold countRunning at ih ⊢
      dsimp only at ih ⊢
      omega

/-- Claim C8: under the semaphore discipline of
`_execute_parallel_searches` with a limiter of size `k`, no reachable
scheduler state has more than `k` tasks simultaneously in the IN_PROGRESS
span, for any number of jurisdiction tasks. -/
theorem C8_semaphore_concurrency_bound (k : Nat) (s : SemState)
    (hr : SchedReachable k s) : countRunning s ≤ k := by
  have hinv := sched_invariant k s hr
  omega

/-- Witness for C8: a concrete reachable state (five tasks, limiter of two,
one acquisition taken) respects the bound. -/
theorem C8_semaphore_concurrency_bound_witness :
    countRunning ⟨(initSched 2 5).phases.set 0 TaskPhase.running,
      (initSched 2 5).avail - 1⟩ ≤ 2 :=
  C8_semaphore_concurrency_bound 2 _
    (SchedReachable.step (SchedReachable.init 5)
      (SemStep.acquire (initSched 2 5) 0 (by decide) (by decide)))

end TitleChain
